import Mathlib

/-!
Shallow embedding of the `delivery-control` store control API (Go), covering
the platform gateway (`internal/services/platform_service.go`), the
DeliveryVip client (`internal/services/deliveryvip_service.go`) and the
AnotaAI client (`anotaai_service.go`), together with the data model
(`internal/models`).  Outbound HTTP traffic is modelled by explicit oracle
values describing the platform's answer, and every operation additionally
reports the number of outbound calls it performed.
-/

set_option maxHeartbeats 1000000

namespace DeliveryControl

/-- `models.Status`: the status vocabulary of a store. -/
inductive Status where
  | ativo
  | inativo
  | naoEncontrado
  | bloqueado
deriving DecidableEq, Repr

/-- `models.TipoErro`: the closed error-kind taxonomy. -/
inductive TipoErro where
  | requisicaoInvalida
  | naoAutorizado
  | naoEncontrado
  | badGateway
  | internoServidor
deriving DecidableEq, Repr

/-- `services.DeliveryVipError`: structured error of the DeliveryVip client. -/
structure DeliveryVipError where
  httpStatus : Nat
  tipoErro : TipoErro
  mensagem : String
deriving DecidableEq, Repr

/-- A Go `error` value as produced by the two platform clients: either the
structured `*DeliveryVipError` (recognized by a type assertion in the bulk
aggregator) or a generic error carrying only its message string. -/
inductive ServiceError where
  | deliveryVip (e : DeliveryVipError)
  | generic (msg : String)
deriving DecidableEq, Repr

/-- `Error()` of a service error: for `DeliveryVipError` it returns `Mensagem`. -/
def ServiceError.message : ServiceError → String
  | .deliveryVip e => e.mensagem
  | .generic msg => msg

/-- `services.NewDeliveryVipError`: maps an HTTP status code to a structured
DeliveryVip error (404 → not-found, 401 → unauthorized, 422 → invalid
request, anything else → bad gateway). -/
def NewDeliveryVipError (httpStatus : Nat) (responseBody : String) : ServiceError :=
  if httpStatus = 404 then
    .deliveryVip ⟨httpStatus, .naoEncontrado, "Loja não encontrada na plataforma"⟩
  else if httpStatus = 401 then
    .deliveryVip ⟨httpStatus, .naoAutorizado, "Erro de autenticação com a plataforma"⟩
  else if httpStatus = 422 then
    .deliveryVip ⟨httpStatus, .requisicaoInvalida, "Dados inválidos para a operação"⟩
  else
    .deliveryVip ⟨httpStatus, .badGateway,
      s!"Erro na comunicação com a plataforma - Status: {httpStatus}, Resposta: {responseBody}"⟩

/-- `models.ResultadoOperacaoLoja`: one per-store outcome of a bulk operation. -/
structure ResultadoOperacaoLoja where
  idLoja : String
  status : Status
  sucesso : Bool
  mensagem : String
  erro : Option TipoErro
deriving DecidableEq, Repr

/-- `models.RespostaOperacaoMultiplasLojas`: result of a bulk operation. -/
structure RespostaOperacaoMultiplasLojas where
  plataforma : String
  resultados : List ResultadoOperacaoLoja
deriving DecidableEq, Repr

/-- `models.RespostaOperacaoLoja`: result of a single-store operation. -/
structure RespostaOperacaoLoja where
  plataforma : String
  idLoja : String
  status : Status
  mensagem : String
deriving DecidableEq, Repr

/-- `models.StatusLojaDetalhes`: one entry of a bulk status query result. -/
structure StatusLojaDetalhes where
  idLoja : String
  status : Status
deriving DecidableEq, Repr

/-- `models.RespostaStatusMultiplasLojas`: result of a bulk status query. -/
structure RespostaStatusMultiplasLojas where
  plataforma : String
  lojas : List StatusLojaDetalhes
deriving DecidableEq, Repr

/-- `services.StoreStatusResult`: per-store lookup outcome of the DeliveryVip
status query. -/
structure StoreStatusResult where
  found : Bool
  isActive : Bool
deriving DecidableEq, Repr

/-- `services.DeliveryVipMerchant`: one merchant in the DeliveryVip listing,
with the subscription fields the client reads. -/
structure DeliveryVipMerchant where
  id : String
  name : String
  subscriptionStatus : String
  subscriptionBlocked : Bool
deriving DecidableEq, Repr

/-- `models.StoreInfo`: per-store information of the AnotaAI status query. -/
structure StoreInfo where
  found : Bool
  isActive : Bool
  status : Status
  documento : String
  nomeFantasia : String
deriving DecidableEq, Repr

/-- `services.AnotaAiPage`: one page/store in the AnotaAI listing, with the
fields the client reads (`page_id`, `page_name`,
`page.establishment.sign.active`, and the already-extracted `cpf_cnpj`
value, i.e. `CpfCnpjField.GetValue()`). -/
structure AnotaAiPage where
  pageId : String
  pageName : String
  signActive : Bool
  cpfCnpjValue : String
deriving DecidableEq, Repr

/-- `services.AnotaAiResponse`: decoded body of an AnotaAI activate or
deactivate response. -/
structure AnotaAiResponse where
  success : Bool
  mensagem : String
deriving DecidableEq, Repr

/-- `services.LoginResponse`: decoded body of an AnotaAI login response. -/
structure LoginResponse where
  success : Bool
  accessToken : String
deriving DecidableEq, Repr

/-- `services.DeliveryVipTokenResponse`: decoded body of a DeliveryVip OAuth
token response.  A JSON body that decodes but lacks `access_token` decodes
to the zero value, i.e. `accessToken = ""`. -/
structure DeliveryVipTokenResponse where
  accessToken : String
deriving DecidableEq, Repr

/-- `utils.CleanDocument`: strips every non-digit character. -/
def CleanDocument (doc : String) : String :=
  String.mk (doc.toList.filter fun c => c.isDigit)

/-- Go map assignment `m[k] = v` on an association-list representation:
overwrites the binding when the key is present, otherwise appends it.
A Go map has no iteration order; this representation fixes one
linearization, and all reasoning about listing maps below goes through
`List.lookup` and key membership, which are order-independent. -/
def mapInsert {β : Type} (m : List (String × β)) (k : String) (v : β) :
    List (String × β) :=
  if (m.lookup k).isSome then
    m.map fun p => if p.1 = k then (k, v) else p
  else
    m ++ [(k, v)]

/-- Character-list containment: `sub` occurs contiguously in the list. -/
def listContainsSub (sub : List Char) : List Char → Bool
  | [] => sub.isEmpty
  | c :: rest => sub.isPrefixOf (c :: rest) || listContainsSub sub rest

/-- Substring test, as in Go's `strings.Contains(s, sub)`. -/
def goContains (s sub : String) : Bool :=
  listContainsSub sub.toList s.toList

/-! ## HTTP oracles

Each outbound endpoint's possible answers, as seen by the client code:
a transport failure, a body-read failure where the code distinguishes it,
or a response carrying the HTTP status together with the body (and, where
the code decodes it, the decode outcome, `none` meaning undecodable). -/

/-- Answer of the DeliveryVip block/unblock endpoints. -/
inductive DvOpHttp where
  | transportError (msg : String)
  | response (status : Nat) (body : String)

/-- Answer of the DeliveryVip merchants listing endpoint. -/
inductive DvListHttp where
  | transportError (msg : String)
  | readError (msg : String)
  | response (status : Nat) (body : String) (decoded : Option (List DeliveryVipMerchant))

/-- Answer of the DeliveryVip OAuth token endpoint. -/
inductive DvTokenHttp where
  | transportError (msg : String)
  | readError (msg : String)
  | response (status : Nat) (body : String) (decoded : Option DeliveryVipTokenResponse)

/-- Answer of the AnotaAI activate/block endpoints. -/
inductive AaOpHttp where
  | transportError (msg : String)
  | response (status : Nat) (decoded : Option AnotaAiResponse)

/-- Decoded body of the AnotaAI `listpages` endpoint. -/
structure AnotaAiListPagesResponse where
  success : Bool
  docs : List AnotaAiPage
deriving DecidableEq, Repr

/-- Answer of the AnotaAI `listpages` endpoint. -/
inductive AaListHttp where
  | transportError (msg : String)
  | response (status : Nat) (decoded : Option AnotaAiListPagesResponse)

/-- Answer of the AnotaAI login endpoint. -/
inductive AaLoginHttp where
  | transportError (msg : String)
  | readError (msg : String)
  | response (status : Nat) (body : String) (decoded : Option LoginResponse)

/-! ## DeliveryVip client (`deliveryvip_service.go`)

Each operation takes the currently cached access token and the endpoint
oracle, and returns its result paired with the number of outbound HTTP
calls it performed. -/

/-- `DeliveryVipService.ActivateStore`: unblocks a merchant.  Fails fast on
an empty token; any response status other than 202 Accepted is converted by
`NewDeliveryVipError`. -/
def DeliveryVipService.ActivateStore (token : String) (h : DvOpHttp) :
    Except ServiceError Unit × Nat :=
  if token = "" then (.error (.generic "token de acesso não disponível"), 0)
  else
    match h with
    | .transportError m =>
        (.error (.generic s!"erro ao fazer requisição de desbloqueio: {m}"), 1)
    | .response status body =>
        if status ≠ 202 then (.error (NewDeliveryVipError status body), 1)
        else (.ok (), 1)

/-- `DeliveryVipService.DeactivateStore`: blocks a merchant; same success
criterion as activation (202 Accepted). -/
def DeliveryVipService.DeactivateStore (token : String) (h : DvOpHttp) :
    Except ServiceError Unit × Nat :=
  if token = "" then (.error (.generic "token de acesso não disponível"), 0)
  else
    match h with
    | .transportError m =>
        (.error (.generic s!"erro ao fazer requisição de bloqueio: {m}"), 1)
    | .response status body =>
        if status ≠ 202 then (.error (NewDeliveryVipError status body), 1)
        else (.ok (), 1)

/-- First loop of `DeliveryVipService.GetMultipleStoreStatus`: walks the
listing and keeps only merchants whose id was requested
(`requestedIDs[merchant.ID]`), recording their active state. -/
def dvFilterListing (merchants : List DeliveryVipMerchant)
    (merchantIDs : List String) : List (String × StoreStatusResult) :=
  merchants.foldl
    (fun m merchant =>
      if merchantIDs.contains merchant.id then
        mapInsert m merchant.id
          ⟨true, merchant.subscriptionStatus == "ACTIVATED" && !merchant.subscriptionBlocked⟩
      else m) []

/-- Second loop of `DeliveryVipService.GetMultipleStoreStatus`: adds a
`found = false` entry for every requested id still missing from the map. -/
def dvAddNotFound (merchantIDs : List String)
    (statusMap : List (String × StoreStatusResult)) : List (String × StoreStatusResult) :=
  merchantIDs.foldl
    (fun m id => if (m.lookup id).isSome then m else mapInsert m id ⟨false, false⟩)
    statusMap

/-- The status-map construction inside
`DeliveryVipService.GetMultipleStoreStatus`: keeps only listed merchants
whose id was requested, then adds a `found = false` entry for every
requested id still missing. -/
def dvBuildStatusMap (merchants : List DeliveryVipMerchant)
    (merchantIDs : List String) : List (String × StoreStatusResult) :=
  dvAddNotFound merchantIDs (dvFilterListing merchants merchantIDs)

/-- `DeliveryVipService.GetMultipleStoreStatus`: fetches the full merchant
listing and filters it against the requested ids. -/
def DeliveryVipService.GetMultipleStoreStatus (token : String)
    (merchantIDs : List String) (h : DvListHttp) :
    Except ServiceError (List (String × StoreStatusResult)) × Nat :=
  if token = "" then (.error (.generic "token de acesso não disponível"), 0)
  else
    match h with
    | .transportError m =>
        (.error (.generic s!"erro ao fazer requisição de consulta: {m}"), 1)
    | .readError m =>
        (.error (.generic s!"erro ao ler resposta de consulta: {m}"), 1)
    | .response status body decoded =>
        if status ≠ 200 then
          (.error (.generic
            s!"erro ao consultar merchants - Status: {status}, Resposta: {body}"), 1)
        else
          match decoded with
          | none => (.error (.generic "erro ao decodificar resposta de merchants"), 1)
          | some merchants => (.ok (dvBuildStatusMap merchants merchantIDs), 1)

/-- `DeliveryVipService.renewToken` acting on the cached token: returns the
attempt's outcome together with the token cache after the attempt.  The
cache is written only in the success path, with the decoded
`access_token` value. -/
def DeliveryVipService.renewToken (cached : String) (h : DvTokenHttp) :
    Except String Unit × String :=
  match h with
  | .transportError m => (.error s!"erro ao fazer requisição de token: {m}", cached)
  | .readError m => (.error s!"erro ao ler resposta do token: {m}", cached)
  | .response status body decoded =>
      if status ≠ 200 then
        (.error s!"erro de autenticação OAuth - Status: {status}, Resposta: {body}", cached)
      else
        match decoded with
        | none => (.error "erro ao decodificar resposta do token", cached)
        | some tokenResp => (.ok (), tokenResp.accessToken)

/-- One cycle of the DeliveryVip renewal loop (`startTokenRenewal`): the
attempt's error, if any, is only logged; the loop always continues with
the resulting cache state. -/
def DeliveryVipService.renewLoopIter (cached : String) (h : DvTokenHttp) : String :=
  match DeliveryVipService.renewToken cached h with
  | (.error _, tok) => tok
  | (.ok _, tok) => tok

/-! ## AnotaAI client (`anotaai_service.go`) -/

/-- `AnotaAiService.ActivateStore`: PUT `partner/active`.  Success requires
status 200, a decodable body, and `success = true` in the body. -/
def AnotaAiService.ActivateStore (token : String) (h : AaOpHttp) :
    Except ServiceError Unit × Nat :=
  if token = "" then (.error (.generic "token de acesso não disponível"), 0)
  else
    match h with
    | .transportError m => (.error (.generic s!"erro na requisição de ativação: {m}"), 1)
    | .response status decoded =>
        if status ≠ 200 then (.error (.generic s!"erro na ativação - status: {status}"), 1)
        else
          match decoded with
          | none => (.error (.generic "erro ao decodificar resposta de ativação"), 1)
          | some anotaResp =>
              if !anotaResp.success then
                (.error (.generic ("ativação falhou: " ++ anotaResp.mensagem)), 1)
              else (.ok (), 1)

/-- `AnotaAiService.DeactivateStore`: PUT `partner/block`; same success
criterion as activation. -/
def AnotaAiService.DeactivateStore (token : String) (h : AaOpHttp) :
    Except ServiceError Unit × Nat :=
  if token = "" then (.error (.generic "token de acesso não disponível"), 0)
  else
    match h with
    | .transportError m => (.error (.generic s!"erro na requisição de desativação: {m}"), 1)
    | .response status decoded =>
        if status ≠ 200 then (.error (.generic s!"erro na desativação - status: {status}"), 1)
        else
          match decoded with
          | none => (.error (.generic "erro ao decodificar resposta de desativação"), 1)
          | some anotaResp =>
              if !anotaResp.success then
                (.error (.generic ("desativação falhou: " ++ anotaResp.mensagem)), 1)
              else (.ok (), 1)

/-- The `StoreInfo` built for a page found in the AnotaAI listing. -/
def anotaAiFoundInfo (page : AnotaAiPage) : StoreInfo :=
  { found := true
    isActive := page.signActive
    status := if page.signActive then Status.ativo else Status.bloqueado
    documento := CleanDocument page.cpfCnpjValue
    nomeFantasia := page.pageName }

/-- The store-map construction inside `AnotaAiService.GetMultipleStoreStatus`:
with no requested ids the whole listing is returned; otherwise every
requested id starts as not-found and is overwritten by the first listing
page with a matching `page_id`. -/
def anotaAiBuildStoreMap (docs : List AnotaAiPage) (idsLojas : List String) :
    List (String × StoreInfo) :=
  if idsLojas.length = 0 then
    docs.foldl (fun m page => mapInsert m page.pageId (anotaAiFoundInfo page)) []
  else
    let base := idsLojas.foldl
      (fun m idLoja => mapInsert m idLoja ⟨false, false, Status.naoEncontrado, "", ""⟩) []
    idsLojas.foldl
      (fun m idLoja =>
        match docs.find? (fun page => page.pageId == idLoja) with
        | some page => mapInsert m idLoja (anotaAiFoundInfo page)
        | none => m)
      base

/-- `AnotaAiService.GetMultipleStoreStatus`: fetches the page listing and
matches the requested ids against it. -/
def AnotaAiService.GetMultipleStoreStatus (token : String)
    (idsLojas : List String) (h : AaListHttp) :
    Except ServiceError (List (String × StoreInfo)) × Nat :=
  if token = "" then (.error (.generic "token de acesso não disponível"), 0)
  else
    match h with
    | .transportError m => (.error (.generic s!"erro na requisição de status: {m}"), 1)
    | .response status decoded =>
        if status ≠ 200 then
          (.error (.generic s!"erro na consulta de status - status: {status}"), 1)
        else
          match decoded with
          | none => (.error (.generic "erro ao decodificar resposta de status"), 1)
          | some listResp =>
              if !listResp.success then
                (.error (.generic "consulta de status falhou - success: false"), 1)
              else (.ok (anotaAiBuildStoreMap listResp.docs idsLojas), 1)

/-- `AnotaAiService.renewToken` acting on the cached token: missing
configured credentials, transport errors, body-read errors, non-200
statuses, undecodable bodies and `success = false` bodies all fail the
attempt; only the success path writes the cache. -/
def AnotaAiService.renewToken (email password cached : String) (h : AaLoginHttp) :
    Except String Unit × String :=
  if email = "" then (.error "email do AnotaAI não configurado", cached)
  else if password = "" then (.error "senha do AnotaAI não configurada", cached)
  else
    match h with
    | .transportError m => (.error s!"erro na requisição de login: {m}", cached)
    | .readError m => (.error s!"erro ao ler corpo da resposta: {m}", cached)
    | .response status body decoded =>
        if status ≠ 200 then
          (.error s!"erro no login - status: {status}, resposta: {body}", cached)
        else
          match decoded with
          | none => (.error "erro ao decodificar resposta de login", cached)
          | some loginResp =>
              if !loginResp.success then (.error "login falhou - success: false", cached)
              else (.ok (), loginResp.accessToken)

/-- One cycle of the AnotaAI renewal loop (`startTokenRenewal`): the
attempt's error, if any, is only logged; the loop always continues with
the resulting cache state. -/
def AnotaAiService.renewLoopIter (email password cached : String) (h : AaLoginHttp) : String :=
  match AnotaAiService.renewToken email password cached h with
  | (.error _, tok) => tok
  | (.ok _, tok) => tok

/-! ## Platform gateway (`platform_service.go`)

The gateway is parametric in the per-platform clients.  For the single and
bulk activate/deactivate paths a client is a function from a store id to
the error of its single-store call (`none` meaning success), exactly the
shape the Go gateway consumes.  The returned `Nat` counts client
invocations. -/

/-- `PlatformService.isValidPlatform`. -/
def PlatformService.isValidPlatform (plataforma : String) : Bool :=
  plataforma == "anotaai" || plataforma == "deliveryvip"

/-- `PlatformService.ActivateStore`: validates the platform, then delegates
to the matching client. -/
def PlatformService.ActivateStore (anotaClient deliveryClient : String → Option ServiceError)
    (plataforma idLoja : String) : Except String RespostaOperacaoLoja × Nat :=
  if !(PlatformService.isValidPlatform plataforma) then
    (.error s!"plataforma não suportada: {plataforma}", 0)
  else if plataforma = "anotaai" then
    match anotaClient idLoja with
    | some err => (.error ("erro ao ativar loja no AnotaAI: " ++ err.message), 1)
    | none => (.ok ⟨plataforma, idLoja, .ativo, "Loja ativada com sucesso"⟩, 1)
  else if plataforma = "deliveryvip" then
    match deliveryClient idLoja with
    | some err => (.error ("erro ao ativar loja no DeliveryVip: " ++ err.message), 1)
    | none => (.ok ⟨plataforma, idLoja, .ativo, "Loja ativada com sucesso"⟩, 1)
  else (.error s!"plataforma não implementada: {plataforma}", 0)

/-- `PlatformService.DeactivateStore`: validates the platform, then
delegates to the matching client. -/
def PlatformService.DeactivateStore (anotaClient deliveryClient : String → Option ServiceError)
    (plataforma idLoja : String) : Except String RespostaOperacaoLoja × Nat :=
  if !(PlatformService.isValidPlatform plataforma) then
    (.error s!"plataforma não suportada: {plataforma}", 0)
  else if plataforma = "anotaai" then
    match anotaClient idLoja with
    | some err => (.error ("erro ao desativar loja no AnotaAI: " ++ err.message), 1)
    | none => (.ok ⟨plataforma, idLoja, .inativo, "Loja desativada com sucesso"⟩, 1)
  else if plataforma = "deliveryvip" then
    match deliveryClient idLoja with
    | some err => (.error ("erro ao desativar loja no DeliveryVip: " ++ err.message), 1)
    | none => (.ok ⟨plataforma, idLoja, .inativo, "Loja desativada com sucesso"⟩, 1)
  else (.error s!"plataforma não implementada: {plataforma}", 0)

/-- The per-item outcome record of `ActivateMultipleStores`: a structured
DeliveryVip error keeps the previous status and carries its own kind; a
generic error whose message mentions a missing store becomes not-found;
any other error becomes bad-gateway. -/
def mkResultadoAtivar (idLoja : String) (err : Option ServiceError) : ResultadoOperacaoLoja :=
  match err with
  | some (.deliveryVip e) =>
      ⟨idLoja, .ativo, false, "Erro ao ativar loja: " ++ e.mensagem, some e.tipoErro⟩
  | some (.generic msg) =>
      if goContains msg "loja não encontrada" || goContains msg "store not found" then
        ⟨idLoja, .naoEncontrado, false, "Loja não encontrada na plataforma", some .naoEncontrado⟩
      else
        ⟨idLoja, .ativo, false, "Erro ao ativar loja: " ++ msg, some .badGateway⟩
  | none => ⟨idLoja, .ativo, true, "Loja ativada com sucesso", none⟩

/-- The per-item outcome record of `DeactivateMultipleStores`. -/
def mkResultadoDesativar (idLoja : String) (err : Option ServiceError) : ResultadoOperacaoLoja :=
  match err with
  | some (.deliveryVip e) =>
      ⟨idLoja, .ativo, false, "Erro ao desativar loja: " ++ e.mensagem, some e.tipoErro⟩
  | some (.generic msg) =>
      if goContains msg "loja não encontrada" || goContains msg "store not found" then
        ⟨idLoja, .naoEncontrado, false, "Loja não encontrada na plataforma", some .naoEncontrado⟩
      else
        ⟨idLoja, .ativo, false, "Erro ao desativar loja: " ++ msg, some .badGateway⟩
  | none => ⟨idLoja, .inativo, true, "Loja desativada com sucesso", none⟩

/-- The per-item loop of `ActivateMultipleStores`: the platform switch sits
inside the loop, so an unsupported platform aborts on the first processed
item, before any client call for it. -/
def activateMultipleLoop (anotaClient deliveryClient : String → Option ServiceError)
    (plataforma : String) :
    List String → List ResultadoOperacaoLoja → Nat →
      Except String (List ResultadoOperacaoLoja) × Nat
  | [], acc, calls => (.ok acc, calls)
  | idLoja :: rest, acc, calls =>
    if plataforma = "anotaai" then
      activateMultipleLoop anotaClient deliveryClient plataforma rest
        (acc ++ [mkResultadoAtivar idLoja (anotaClient idLoja)]) (calls + 1)
    else if plataforma = "deliveryvip" then
      activateMultipleLoop anotaClient deliveryClient plataforma rest
        (acc ++ [mkResultadoAtivar idLoja (deliveryClient idLoja)]) (calls + 1)
    else (.error s!"plataforma não suportada: {plataforma}", calls)

/-- The per-item loop of `DeactivateMultipleStores`. -/
def deactivateMultipleLoop (anotaClient deliveryClient : String → Option ServiceError)
    (plataforma : String) :
    List String → List ResultadoOperacaoLoja → Nat →
      Except String (List ResultadoOperacaoLoja) × Nat
  | [], acc, calls => (.ok acc, calls)
  | idLoja :: rest, acc, calls =>
    if plataforma = "anotaai" then
      deactivateMultipleLoop anotaClient deliveryClient plataforma rest
        (acc ++ [mkResultadoDesativar idLoja (anotaClient idLoja)]) (calls + 1)
    else if plataforma = "deliveryvip" then
      deactivateMultipleLoop anotaClient deliveryClient plataforma rest
        (acc ++ [mkResultadoDesativar idLoja (deliveryClient idLoja)]) (calls + 1)
    else (.error s!"plataforma não suportada: {plataforma}", calls)

/-- `PlatformService.ActivateMultipleStores`: processes every id in order,
isolating per-item failures. -/
def PlatformService.ActivateMultipleStores
    (anotaClient deliveryClient : String → Option ServiceError)
    (plataforma : String) (idsLojas : List String) :
    Except String RespostaOperacaoMultiplasLojas × Nat :=
  match activateMultipleLoop anotaClient deliveryClient plataforma idsLojas [] 0 with
  | (.ok res, calls) => (.ok ⟨plataforma, res⟩, calls)
  | (.error e, calls) => (.error e, calls)

/-- `PlatformService.DeactivateMultipleStores`: processes every id in order,
isolating per-item failures. -/
def PlatformService.DeactivateMultipleStores
    (anotaClient deliveryClient : String → Option ServiceError)
    (plataforma : String) (idsLojas : List String) :
    Except String RespostaOperacaoMultiplasLojas × Nat :=
  match deactivateMultipleLoop anotaClient deliveryClient plataforma idsLojas [] 0 with
  | (.ok res, calls) => (.ok ⟨plataforma, res⟩, calls)
  | (.error e, calls) => (.error e, calls)

/-- The AnotaAI branch of the gateway status query: the service hands the
gateway a map from store id to an is-active flag; a requested id is
reported `ativo` exactly when it is present with value `true`, and
`inativo` otherwise. With no requested ids the whole map is converted. -/
def anotaAiGatewayLojas (statusMap : List (String × Bool)) (idsLojas : List String) :
    List StatusLojaDetalhes :=
  if idsLojas.length > 0 then
    idsLojas.map fun idLoja =>
      match statusMap.lookup idLoja with
      | some true => ⟨idLoja, Status.ativo⟩
      | _ => ⟨idLoja, Status.inativo⟩
  else
    statusMap.map fun p => ⟨p.1, if p.2 then Status.ativo else Status.inativo⟩

/-- The DeliveryVip branch of the gateway status query, over the service's
found/is-active map. -/
def deliveryVipGatewayLojas (statusMap : List (String × StoreStatusResult))
    (idsLojas : List String) : List StatusLojaDetalhes :=
  if idsLojas.length > 0 then
    idsLojas.map fun idLoja =>
      match statusMap.lookup idLoja with
      | some result =>
          if !result.found then ⟨idLoja, Status.naoEncontrado⟩
          else if result.isActive then ⟨idLoja, Status.ativo⟩
          else ⟨idLoja, Status.inativo⟩
      | none => ⟨idLoja, Status.naoEncontrado⟩
  else
    statusMap.map fun p =>
      if !p.2.found then ⟨p.1, Status.naoEncontrado⟩
      else if p.2.isActive then ⟨p.1, Status.ativo⟩
      else ⟨p.1, Status.inativo⟩

/-- `PlatformService.GetMultipleStoreStatus`: validates the platform, asks
the matching client for its status map, and converts it.  The clients are
parameters returning their result and outbound-call count. -/
def PlatformService.GetMultipleStoreStatus
    (anotaStatus : List String → Except ServiceError (List (String × Bool)) × Nat)
    (deliveryStatus : List String → Except ServiceError (List (String × StoreStatusResult)) × Nat)
    (plataforma : String) (idsLojas : List String) :
    Except String RespostaStatusMultiplasLojas × Nat :=
  if !(PlatformService.isValidPlatform plataforma) then
    (.error s!"plataforma não suportada: {plataforma}", 0)
  else if plataforma = "anotaai" then
    match anotaStatus idsLojas with
    | (.error err, calls) =>
        (.error ("erro ao consultar status no AnotaAI: " ++ err.message), calls)
    | (.ok statusMap, calls) =>
        (.ok ⟨plataforma, anotaAiGatewayLojas statusMap idsLojas⟩, calls)
  else if plataforma = "deliveryvip" then
    match deliveryStatus idsLojas with
    | (.error err, calls) =>
        (.error ("erro ao consultar status das lojas no DeliveryVip: " ++ err.message), calls)
    | (.ok statusMap, calls) =>
        (.ok ⟨plataforma, deliveryVipGatewayLojas statusMap idsLojas⟩, calls)
  else (.error s!"plataforma não implementada: {plataforma}", 0)

/-- Specification-side expected status of a requested id against a
DeliveryVip listing: the true active/inactive state of the first listed
merchant with that id, or not-found when no merchant carries it. -/
def dvListingStatus (merchants : List DeliveryVipMerchant) (id : String) : Status :=
  match merchants.find? (fun m => m.id == id) with
  | some m =>
      if m.subscriptionStatus == "ACTIVATED" && !m.subscriptionBlocked then Status.ativo
      else Status.inativo
  | none => Status.naoEncontrado

/-! ## Helper lemmas -/

theorem lookup_map_replace {β : Type} (t : List (String × β)) (k : String) (v : β)
    (h : (t.lookup k).isSome) :
    (t.map fun p => if p.1 = k then (k, v) else p).lookup k = some v := by
  induction t with
  | nil => simp at h
  | cons p t ih =>
    rw [List.map_cons]
    by_cases hk : p.1 = k
    · rw [if_pos hk]
      simp [List.lookup_cons]
    · rw [if_neg hk]
      have hk' : (k == p.1) = false := beq_false_of_ne (Ne.symm hk)
      rw [List.lookup_cons]
      simp only [hk']
      apply ih
      rw [List.lookup_cons] at h
      simpa [hk'] using h

theorem lookup_map_replace_ne {β : Type} (t : List (String × β)) (k k' : String) (v : β)
    (hne : k' ≠ k) :
    (t.map fun p => if p.1 = k then (k, v) else p).lookup k' = t.lookup k' := by
  induction t with
  | nil => simp
  | cons p t ih =>
    rw [List.map_cons]
    by_cases hk : p.1 = k
    · rw [if_pos hk]
      have h1 : (k' == k) = false := beq_false_of_ne hne
      have h2 : (k' == p.1) = false := by rw [hk]; exact h1
      rw [List.lookup_cons, List.lookup_cons]
      simp only [h1, h2, ih]
    · rw [if_neg hk]
      rw [List.lookup_cons, List.lookup_cons]
      cases hkp : (k' == p.1) <;> simp [ih]

theorem lookup_append_right {β : Type} (t : List (String × β)) (k : String) (v : β)
    (h : t.lookup k = none) :
    (t ++ [(k, v)]).lookup k = some v := by
  induction t with
  | nil => simp [List.lookup_cons]
  | cons p t ih =>
    rw [List.cons_append, List.lookup_cons]
    rw [List.lookup_cons] at h
    cases hkp : (k == p.1) with
    | true => rw [hkp] at h; simp at h
    | false => rw [hkp] at h; simp only [ih h]

theorem lookup_append_ne {β : Type} (t : List (String × β)) (k k' : String) (v : β)
    (hne : k' ≠ k) :
    (t ++ [(k, v)]).lookup k' = t.lookup k' := by
  induction t with
  | nil => simp [List.lookup_cons, beq_false_of_ne hne]
  | cons p t ih =>
    rw [List.cons_append, List.lookup_cons, List.lookup_cons]
    cases hkp : (k' == p.1) <;> simp [ih]

theorem lookup_mapInsert_self {β : Type} (m : List (String × β)) (k : String) (v : β) :
    (mapInsert m k v).lookup k = some v := by
  unfold mapInsert
  split
  · exact lookup_map_replace m k v (by assumption)
  · exact lookup_append_right m k v (by rename_i h; cases hm : m.lookup k with
      | none => rfl
      | some b => rw [hm] at h; simp at h)

theorem lookup_mapInsert_ne {β : Type} (m : List (String × β)) (k k' : String) (v : β)
    (hne : k' ≠ k) : (mapInsert m k v).lookup k' = m.lookup k' := by
  unfold mapInsert
  split
  · exact lookup_map_replace_ne m k k' v hne
  · exact lookup_append_ne m k k' v hne

theorem mkResultadoAtivar_idLoja (idLoja : String) (err : Option ServiceError) :
    (mkResultadoAtivar idLoja err).idLoja = idLoja := by
  unfold mkResultadoAtivar
  cases err with
  | none => rfl
  | some e =>
    cases e with
    | deliveryVip e => rfl
    | generic msg => dsimp only; split <;> rfl

theorem mkResultadoDesativar_idLoja (idLoja : String) (err : Option ServiceError) :
    (mkResultadoDesativar idLoja err).idLoja = idLoja := by
  unfold mkResultadoDesativar
  cases err with
  | none => rfl
  | some e =>
    cases e with
    | deliveryVip e => rfl
    | generic msg => dsimp only; split <;> rfl

theorem activateMultipleLoop_ok (anotaClient deliveryClient : String → Option ServiceError)
    (plataforma : String) (hp : plataforma = "anotaai" ∨ plataforma = "deliveryvip")
    (ids : List String) (acc : List ResultadoOperacaoLoja) (calls : Nat) :
    ∃ l calls', activateMultipleLoop anotaClient deliveryClient plataforma ids acc calls =
      (.ok l, calls') ∧ l.map (fun r => r.idLoja) = acc.map (fun r => r.idLoja) ++ ids := by
  induction ids generalizing acc calls with
  | nil => exact ⟨acc, calls, rfl, by simp⟩
  | cons idLoja rest ih =>
    rcases hp with h | h <;> subst h
    · obtain ⟨l, calls', heq, hmap⟩ :=
        ih (acc ++ [mkResultadoAtivar idLoja (anotaClient idLoja)]) (calls + 1)
      refine ⟨l, calls', ?_, ?_⟩
      · simpa [activateMultipleLoop] using heq
      · simp [hmap, mkResultadoAtivar_idLoja]
    · obtain ⟨l, calls', heq, hmap⟩ :=
        ih (acc ++ [mkResultadoAtivar idLoja (deliveryClient idLoja)]) (calls + 1)
      refine ⟨l, calls', ?_, ?_⟩
      · simpa [activateMultipleLoop] using heq
      · simp [hmap, mkResultadoAtivar_idLoja]

theorem deactivateMultipleLoop_ok (anotaClient deliveryClient : String → Option ServiceError)
    (plataforma : String) (hp : plataforma = "anotaai" ∨ plataforma = "deliveryvip")
    (ids : List String) (acc : List ResultadoOperacaoLoja) (calls : Nat) :
    ∃ l calls', deactivateMultipleLoop anotaClient deliveryClient plataforma ids acc calls =
      (.ok l, calls') ∧ l.map (fun r => r.idLoja) = acc.map (fun r => r.idLoja) ++ ids := by
  induction ids generalizing acc calls with
  | nil => exact ⟨acc, calls, rfl, by simp⟩
  | cons idLoja rest ih =>
    rcases hp with h | h <;> subst h
    · obtain ⟨l, calls', heq, hmap⟩ :=
        ih (acc ++ [mkResultadoDesativar idLoja (anotaClient idLoja)]) (calls + 1)
      refine ⟨l, calls', ?_, ?_⟩
      · simpa [deactivateMultipleLoop] using heq
      · simp [hmap, mkResultadoDesativar_idLoja]
    · obtain ⟨l, calls', heq, hmap⟩ :=
        ih (acc ++ [mkResultadoDesativar idLoja (deliveryClient idLoja)]) (calls + 1)
      refine ⟨l, calls', ?_, ?_⟩
      · simpa [deactivateMultipleLoop] using heq
      · simp [hmap, mkResultadoDesativar_idLoja]

/-! ## Claims -/

/-- C1: for either supported platform and any store-id list (duplicates
allowed) under arbitrary per-item client outcomes, both bulk operations
succeed with a `Resultados` list whose i-th entry carries the i-th
submitted store id, in submission order (hence exactly N entries). -/
theorem C1_bulk_result_one_entry_per_id (plataforma : String)
    (hp : plataforma = "anotaai" ∨ plataforma = "deliveryvip")
    (anotaClient deliveryClient : String → Option ServiceError) (idsLojas : List String) :
    (∃ r calls,
      PlatformService.ActivateMultipleStores anotaClient deliveryClient plataforma idsLojas =
        (.ok r, calls) ∧ r.resultados.map (fun res => res.idLoja) = idsLojas) ∧
    (∃ r calls,
      PlatformService.DeactivateMultipleStores anotaClient deliveryClient plataforma idsLojas =
        (.ok r, calls) ∧ r.resultados.map (fun res => res.idLoja) = idsLojas) := by
  constructor
  · obtain ⟨l, calls', heq, hmap⟩ :=
      activateMultipleLoop_ok anotaClient deliveryClient plataforma hp idsLojas [] 0
    exact ⟨⟨plataforma, l⟩, calls', by simp [PlatformService.ActivateMultipleStores, heq],
      by simpa using hmap⟩
  · obtain ⟨l, calls', heq, hmap⟩ :=
      deactivateMultipleLoop_ok anotaClient deliveryClient plataforma hp idsLojas [] 0
    exact ⟨⟨plataforma, l⟩, calls', by simp [PlatformService.DeactivateMultipleStores, heq],
      by simpa using hmap⟩

/-- Witness for C1 at a concrete platform, concrete clients and a list with
a duplicate id. -/
theorem C1_bulk_result_one_entry_per_id_witness :
    (∃ r calls,
      PlatformService.ActivateMultipleStores (fun _ => some (.generic "boom")) (fun _ => none)
        "anotaai" ["a", "b", "a"] =
        (.ok r, calls) ∧ r.resultados.map (fun res => res.idLoja) = ["a", "b", "a"]) ∧
    (∃ r calls,
      PlatformService.DeactivateMultipleStores (fun _ => some (.generic "boom")) (fun _ => none)
        "anotaai" ["a", "b", "a"] =
        (.ok r, calls) ∧ r.resultados.map (fun res => res.idLoja) = ["a", "b", "a"]) :=
  C1_bulk_result_one_entry_per_id "anotaai" (Or.inl rfl)
    (fun _ => some (.generic "boom")) (fun _ => none) ["a", "b", "a"]

/-- C2 counterexample: with an unsupported platform and an empty store-id
list, both bulk operations succeed with an empty result list instead of
rejecting the request — the platform check sits inside the per-item loop,
so it is never reached for an empty list. -/
theorem C2_counterexample_empty_list_accepted :
    (PlatformService.ActivateMultipleStores (fun _ => none) (fun _ => none) "foo" []).1 =
      .ok ⟨"foo", []⟩ ∧
    (PlatformService.DeactivateMultipleStores (fun _ => none) (fun _ => none) "foo" []).1 =
      .ok ⟨"foo", []⟩ := ⟨rfl, rfl⟩

/-- C2 (amended): for an unsupported platform identifier, the bulk
operations reject a NON-empty request with a 'plataforma não suportada'
error on the first processed item, before any platform-client call (the
check sits inside the per-item loop, not before it); an empty list is
accepted with an empty result list.  The single-store operations and the
status query validate the platform first and fail before any
platform-client call. -/
theorem C2_amended_unsupported_platform (plataforma : String)
    (hp : PlatformService.isValidPlatform plataforma = false)
    (anotaClient deliveryClient : String → Option ServiceError)
    (anotaStatus : List String → Except ServiceError (List (String × Bool)) × Nat)
    (deliveryStatus : List String → Except ServiceError (List (String × StoreStatusResult)) × Nat)
    (idLoja : String) (rest idsLojas : List String) :
    (PlatformService.ActivateMultipleStores anotaClient deliveryClient plataforma
        (idLoja :: rest) = (.error s!"plataforma não suportada: {plataforma}", 0)) ∧
    (PlatformService.DeactivateMultipleStores anotaClient deliveryClient plataforma
        (idLoja :: rest) = (.error s!"plataforma não suportada: {plataforma}", 0)) ∧
    (PlatformService.ActivateMultipleStores anotaClient deliveryClient plataforma [] =
        (.ok ⟨plataforma, []⟩, 0)) ∧
    (PlatformService.DeactivateMultipleStores anotaClient deliveryClient plataforma [] =
        (.ok ⟨plataforma, []⟩, 0)) ∧
    (PlatformService.ActivateStore anotaClient deliveryClient plataforma idLoja =
        (.error s!"plataforma não suportada: {plataforma}", 0)) ∧
    (PlatformService.DeactivateStore anotaClient deliveryClient plataforma idLoja =
        (.error s!"plataforma não suportada: {plataforma}", 0)) ∧
    (PlatformService.GetMultipleStoreStatus anotaStatus deliveryStatus plataforma idsLojas =
        (.error s!"plataforma não suportada: {plataforma}", 0)) := by
  have hvalid := hp
  unfold PlatformService.isValidPlatform at hvalid
  rw [Bool.or_eq_false_iff] at hvalid
  have ha : plataforma ≠ "anotaai" := by
    intro h
    rw [h] at hvalid
    simp at hvalid
  have hd : plataforma ≠ "deliveryvip" := by
    intro h
    rw [h] at hvalid
    simp at hvalid
  refine ⟨?_, ?_, rfl, rfl, ?_, ?_, ?_⟩
  · unfold PlatformService.ActivateMultipleStores activateMultipleLoop
    rw [if_neg ha, if_neg hd]
  · unfold PlatformService.DeactivateMultipleStores deactivateMultipleLoop
    rw [if_neg ha, if_neg hd]
  · unfold PlatformService.ActivateStore
    rw [hp]
    rfl
  · unfold PlatformService.DeactivateStore
    rw [hp]
    rfl
  · unfold PlatformService.GetMultipleStoreStatus
    rw [hp]
    rfl

/-- Witness for the amended C2 at a concrete unsupported platform. -/
theorem C2_amended_unsupported_platform_witness :
    (PlatformService.ActivateMultipleStores (fun _ => none) (fun _ => none) "foo"
        ["s1"] = (.error "plataforma não suportada: foo", 0)) ∧
    (PlatformService.DeactivateMultipleStores (fun _ => none) (fun _ => none) "foo"
        ["s1"] = (.error "plataforma não suportada: foo", 0)) ∧
    (PlatformService.ActivateMultipleStores (fun _ => none) (fun _ => none) "foo" [] =
        (.ok ⟨"foo", []⟩, 0)) ∧
    (PlatformService.DeactivateMultipleStores (fun _ => none) (fun _ => none) "foo" [] =
        (.ok ⟨"foo", []⟩, 0)) ∧
    (PlatformService.ActivateStore (fun _ => none) (fun _ => none) "foo" "s1" =
        (.error "plataforma não suportada: foo", 0)) ∧
    (PlatformService.DeactivateStore (fun _ => none) (fun _ => none) "foo" "s1" =
        (.error "plataforma não suportada: foo", 0)) ∧
    (PlatformService.GetMultipleStoreStatus (fun _ => (.ok [], 1))
        (fun _ => (.ok [], 1)) "foo" ["s1"] =
        (.error "plataforma não suportada: foo", 0)) :=
  C2_amended_unsupported_platform "foo" (by decide) (fun _ => none) (fun _ => none)
    (fun _ => (.ok [], 1)) (fun _ => (.ok [], 1)) "s1" [] ["s1"]

/-- C3: the DeliveryVip status-map construction drops every listed merchant
when the requested-id set is empty (`requestedIDs[merchant.ID]` is false
for all merchants), so an empty/absent id filter yields an EMPTY result
instead of every store known to the platform — contradicting the
function's own documentation comment ("Se idsLojas for nil ou vazio,
retorna o status de todas as lojas da plataforma").  Evaluated both on the
map construction for an arbitrary listing and on the full gateway
pipeline at a concrete listing. -/
theorem C3_deliveryvip_empty_filter_returns_nothing :
    (∀ merchants : List DeliveryVipMerchant, dvBuildStatusMap merchants [] = []) ∧
    PlatformService.GetMultipleStoreStatus
      (fun _ => (.error (.generic "unused"), 0))
      (fun ids => DeliveryVipService.GetMultipleStoreStatus "tok" ids
        (.response 200 "body" (some [⟨"m1", "Loja Um", "ACTIVATED", false⟩])))
      "deliveryvip" [] =
    (.ok ⟨"deliveryvip", []⟩, 1) := by
  constructor
  · intro merchants
    have aux : ∀ (ms : List DeliveryVipMerchant),
        ms.foldl
          (fun m merchant =>
            if ([] : List String).contains merchant.id then
              mapInsert m merchant.id
                ⟨true, merchant.subscriptionStatus == "ACTIVATED" && !merchant.subscriptionBlocked⟩
            else m)
          ([] : List (String × StoreStatusResult)) = [] := by
      intro ms
      induction ms with
      | nil => rfl
      | cons m ms ih => simp [List.foldl_cons, ih]
    unfold dvBuildStatusMap dvAddNotFound dvFilterListing
    simp [aux merchants]
  · rfl

theorem dvFilterListing_foldl_lookup (ids : List String)
    (merchants : List DeliveryVipMerchant)
    (hnd : (merchants.map (fun m => m.id)).Nodup)
    (acc : List (String × StoreStatusResult)) (id : String) :
    (merchants.foldl
      (fun m merchant =>
        if ids.contains merchant.id then
          mapInsert m merchant.id
            ⟨true, merchant.subscriptionStatus == "ACTIVATED" && !merchant.subscriptionBlocked⟩
        else m) acc).lookup id =
    match merchants.find? (fun m => m.id == id) with
    | some mer =>
        if ids.contains id then
          some ⟨true, mer.subscriptionStatus == "ACTIVATED" && !mer.subscriptionBlocked⟩
        else acc.lookup id
    | none => acc.lookup id := by
  induction merchants generalizing acc with
  | nil => simp [List.find?]
  | cons mer ms ih =>
    rw [List.map_cons, List.nodup_cons] at hnd
    obtain ⟨hhead, htail⟩ := hnd
    rw [List.foldl_cons]
    by_cases hid : mer.id = id
    · subst hid
      have hfind : (mer :: ms).find? (fun m => m.id == mer.id) = some mer :=
        List.find?_cons_of_pos _ (by simp)
      have hnone : ms.find? (fun m => m.id == mer.id) = none := by
        rw [List.find?_eq_none]
        intro x hx hpx
        exact hhead (List.mem_map.mpr ⟨x, hx, (beq_iff_eq.mp hpx)⟩)
      rw [ih htail, hnone, hfind]
      dsimp only
      by_cases hc : ids.contains mer.id = true
      · rw [if_pos hc, if_pos hc, lookup_mapInsert_self]
      · rw [if_neg hc, if_neg hc]
    · have hfind : (mer :: ms).find? (fun m => m.id == id) = ms.find? (fun m => m.id == id) :=
        List.find?_cons_of_neg _ (by simp [hid])
      rw [ih htail, hfind]
      have hacc : (if ids.contains mer.id = true then
          mapInsert acc mer.id
            ⟨true, mer.subscriptionStatus == "ACTIVATED" && !mer.subscriptionBlocked⟩
          else acc).lookup id = acc.lookup id := by
        by_cases hc : ids.contains mer.id = true
        · rw [if_pos hc, lookup_mapInsert_ne _ _ _ _ (fun h => hid h.symm)]
        · rw [if_neg hc]
      cases hfm : ms.find? (fun m => m.id == id) with
      | none =>
        dsimp only
        exact hacc
      | some m1 =>
        dsimp only
        rw [hacc]

theorem dvAddNotFound_foldl_lookup (ids : List String)
    (acc : List (String × StoreStatusResult)) (id : String) :
    (ids.foldl
      (fun m i => if (m.lookup i).isSome then m else mapInsert m i ⟨false, false⟩)
      acc).lookup id =
    if (acc.lookup id).isSome then acc.lookup id
    else if ids.contains id then some ⟨false, false⟩ else none := by
  induction ids generalizing acc with
  | nil => cases h : acc.lookup id <;> simp [h]
  | cons j rest ih =>
    rw [List.foldl_cons, ih]
    by_cases hj : j = id
    · subst hj
      by_cases hs : (acc.lookup j).isSome = true
      · simp only [if_pos hs]
      · rw [if_neg hs, if_neg hs]
        have hlk : (mapInsert acc j (⟨false, false⟩ : StoreStatusResult)).lookup j =
            some ⟨false, false⟩ := lookup_mapInsert_self acc j _
        rw [hlk]
        have hcont : (j :: rest).contains j = true := by
          rw [List.contains_cons]
          simp
        rw [hcont]
        simp
    · have hacc : (if (acc.lookup j).isSome = true then acc
          else mapInsert acc j ⟨false, false⟩).lookup id = acc.lookup id := by
        by_cases hs : (acc.lookup j).isSome = true
        · rw [if_pos hs]
        · rw [if_neg hs, lookup_mapInsert_ne _ _ _ _ (fun h => hj h.symm)]
      have hcont : (j :: rest).contains id = rest.contains id := by
        rw [List.contains_cons, beq_false_of_ne (fun h => hj h.symm), Bool.false_or]
      rw [hacc, hcont]

theorem dvBuildStatusMap_lookup_requested (merchants : List DeliveryVipMerchant)
    (ids : List String) (hnd : (merchants.map (fun m => m.id)).Nodup)
    (id : String) (hmem : id ∈ ids) :
    (dvBuildStatusMap merchants ids).lookup id =
    match merchants.find? (fun m => m.id == id) with
    | some mer =>
        some ⟨true, mer.subscriptionStatus == "ACTIVATED" && !mer.subscriptionBlocked⟩
    | none => some ⟨false, false⟩ := by
  unfold dvBuildStatusMap dvAddNotFound dvFilterListing
  rw [dvAddNotFound_foldl_lookup, dvFilterListing_foldl_lookup ids merchants hnd]
  have hcont : ids.contains id = true := List.elem_iff.mpr hmem
  cases hf : merchants.find? (fun m => m.id == id) with
  | some mer => simp [hcont, hmem]
  | none => simp [hcont, hmem, List.lookup]

theorem deliveryVipGatewayLojas_build (merchants : List DeliveryVipMerchant)
    (ids : List String) (hne : ids ≠ [])
    (hnd : (merchants.map (fun m => m.id)).Nodup) :
    deliveryVipGatewayLojas (dvBuildStatusMap merchants ids) ids =
      ids.map fun id => ⟨id, dvListingStatus merchants id⟩ := by
  unfold deliveryVipGatewayLojas
  rw [if_pos (by simpa using List.length_pos.mpr hne)]
  apply List.map_congr_left
  intro id hmem
  rw [dvBuildStatusMap_lookup_requested merchants ids hnd id hmem]
  unfold dvListingStatus
  cases hf : merchants.find? (fun m => m.id == id) with
  | some mer =>
    by_cases hcond : mer.subscriptionStatus = "ACTIVATED" ∧ mer.subscriptionBlocked = false
    · simp [hf, hcond]
    · simp [hf, hcond]
  | none => simp [hf]

/-- C4 counterexample: on the AnotaAI branch of the gateway status query, a
requested id absent from the platform's listing (here: an empty listing) is
reported with status `inativo`, not `nao_encontrado` — the claim's
"never reported as inactive" fails. -/
theorem C4_counterexample_anotaai_absent_id_inactive :
    PlatformService.GetMultipleStoreStatus (fun _ => (.ok [], 1))
      (fun _ => (.error (.generic "unused"), 0)) "anotaai" ["x"] =
      (.ok ⟨"anotaai", [⟨"x", Status.inativo⟩]⟩, 1) ∧
    Status.inativo ≠ Status.naoEncontrado := ⟨rfl, by decide⟩

/-- C4 (amended): for the DeliveryVip branch, each requested id is reported
with its true listing state — not-found when absent, active/inactive by
subscription state when present — independent of request ordering and
duplicates (the result is a pointwise map over the requested ids).  For the
AnotaAI branch, a requested id is reported `ativo` exactly when the
service's status map carries it with value `true`, and `inativo` otherwise:
ids absent from the listing are reported inactive there, never not-found. -/
theorem C4_amended_status_query (statusMap : List (String × Bool))
    (token body : String) (htok : token ≠ "")
    (merchants : List DeliveryVipMerchant)
    (hnd : (merchants.map (fun m => m.id)).Nodup)
    (idsLojas : List String) (hne : idsLojas ≠ []) :
    PlatformService.GetMultipleStoreStatus (fun _ => (.ok statusMap, 1))
        (fun _ => (.error (.generic "unused"), 0)) "anotaai" idsLojas =
      (.ok ⟨"anotaai", idsLojas.map fun id =>
        ⟨id, if statusMap.lookup id = some true then Status.ativo else Status.inativo⟩⟩, 1) ∧
    PlatformService.GetMultipleStoreStatus (fun _ => (.error (.generic "unused"), 0))
        (fun ids => DeliveryVipService.GetMultipleStoreStatus token ids
          (.response 200 body (some merchants)))
        "deliveryvip" idsLojas =
      (.ok ⟨"deliveryvip", idsLojas.map fun id => ⟨id, dvListingStatus merchants id⟩⟩, 1) := by
  have hlen : 0 < idsLojas.length := List.length_pos.mpr hne
  constructor
  · have hlojas : anotaAiGatewayLojas statusMap idsLojas =
        idsLojas.map fun id =>
          ⟨id, if statusMap.lookup id = some true then Status.ativo else Status.inativo⟩ := by
      unfold anotaAiGatewayLojas
      rw [if_pos hlen]
      apply List.map_congr_left
      intro id _
      cases hl : statusMap.lookup id with
      | none => simp
      | some b => cases b with
        | false => simp
        | true => simp
    simp [PlatformService.GetMultipleStoreStatus, PlatformService.isValidPlatform, hlojas]
  · have hserv : DeliveryVipService.GetMultipleStoreStatus token idsLojas
        (.response 200 body (some merchants)) = (.ok (dvBuildStatusMap merchants idsLojas), 1) := by
      simp [DeliveryVipService.GetMultipleStoreStatus, htok]
    simp [PlatformService.GetMultipleStoreStatus, PlatformService.isValidPlatform, hserv,
      deliveryVipGatewayLojas_build merchants idsLojas hne hnd]

/-- Witness for the amended C4: one listed (active) merchant, one absent id. -/
theorem C4_amended_status_query_witness :
    PlatformService.GetMultipleStoreStatus (fun _ => (.ok [("a", true)], 1))
        (fun _ => (.error (.generic "unused"), 0)) "anotaai" ["s1", "x"] =
      (.ok ⟨"anotaai", ["s1", "x"].map fun id =>
        ⟨id, if ([("a", true)].lookup id) = some true then Status.ativo
          else Status.inativo⟩⟩, 1) ∧
    PlatformService.GetMultipleStoreStatus (fun _ => (.error (.generic "unused"), 0))
        (fun ids => DeliveryVipService.GetMultipleStoreStatus "t" ids
          (.response 200 "" (some [⟨"s1", "Loja Um", "ACTIVATED", false⟩])))
        "deliveryvip" ["s1", "x"] =
      (.ok ⟨"deliveryvip", ["s1", "x"].map fun id =>
        ⟨id, dvListingStatus [⟨"s1", "Loja Um", "ACTIVATED", false⟩] id⟩⟩, 1) :=
  C4_amended_status_query [("a", true)] "t" "" (by decide)
    [⟨"s1", "Loja Um", "ACTIVATED", false⟩] (by decide) ["s1", "x"] (by decide)

/-- C5 counterexample: bulk deactivate of `[s1, s2]` on DeliveryVip where
s1's call succeeds (202) and s2's call fails with the platform's 404
not-found: s2's entry keeps status `ativo` ("mantém status anterior") with
error kind not-found — it is NOT reported with status `nao_encontrado` as
the claim requires, because the structured-error branch of the aggregator
wins over the message-pattern branch. -/
theorem C5_counterexample_structured_notfound_keeps_status :
    (PlatformService.DeactivateMultipleStores (fun _ => none)
      (fun id =>
        match (DeliveryVipService.DeactivateStore "tok"
            (if id = "s2" then .response 404 "" else .response 202 "")).1 with
        | .error e => some e
        | .ok _ => none)
      "deliveryvip" ["s1", "s2"]).1 =
      .ok ⟨"deliveryvip",
        [⟨"s1", .inativo, true, "Loja desativada com sucesso", none⟩,
         ⟨"s2", .ativo, false, "Erro ao desativar loja: Loja não encontrada na plataforma",
           some .naoEncontrado⟩]⟩ ∧
    Status.ativo ≠ Status.naoEncontrado := ⟨rfl, by decide⟩

/-- C5 (amended): in a bulk activate or deactivate, a successful item gets
status `ativo` / `inativo` respectively, success, no error kind; an item
failing with a STRUCTURED DeliveryVip error keeps the previous status
(`ativo`) while carrying exactly the error's own kind (not-found for a
404) — so the claim's scenario yields
`{s2, status=ativo, success=false, error=not-found}`; only a generic
failure whose message mentions a missing store gets status
`nao_encontrado` with error kind not-found; any other generic failure
keeps status `ativo` with error kind bad-gateway. -/
theorem C5_amended_bulk_item_classification
    (deliveryClient : String → Option ServiceError) (body msg : String)
    (h1 : deliveryClient "s1" = none)
    (h2 : deliveryClient "s2" = some (NewDeliveryVipError 404 body))
    (hmsg : (goContains msg "loja não encontrada" || goContains msg "store not found") = true) :
    (PlatformService.DeactivateMultipleStores (fun _ => none) deliveryClient "deliveryvip"
        ["s1", "s2"]).1 =
      .ok ⟨"deliveryvip",
        [⟨"s1", .inativo, true, "Loja desativada com sucesso", none⟩,
         ⟨"s2", .ativo, false, "Erro ao desativar loja: Loja não encontrada na plataforma",
           some .naoEncontrado⟩]⟩ ∧
    (∀ (client : String → Option ServiceError) (idLoja : String),
      client idLoja = none →
      (PlatformService.ActivateMultipleStores (fun _ => none) client "deliveryvip"
          [idLoja]).1 =
        .ok ⟨"deliveryvip",
          [⟨idLoja, .ativo, true, "Loja ativada com sucesso", none⟩]⟩ ∧
      (PlatformService.DeactivateMultipleStores (fun _ => none) client "deliveryvip"
          [idLoja]).1 =
        .ok ⟨"deliveryvip",
          [⟨idLoja, .inativo, true, "Loja desativada com sucesso", none⟩]⟩) ∧
    (∀ (client : String → Option ServiceError) (idLoja : String) (e : DeliveryVipError),
      client idLoja = some (.deliveryVip e) →
      (PlatformService.ActivateMultipleStores (fun _ => none) client "deliveryvip"
          [idLoja]).1 =
        .ok ⟨"deliveryvip",
          [⟨idLoja, .ativo, false, "Erro ao ativar loja: " ++ e.mensagem,
            some e.tipoErro⟩]⟩ ∧
      (PlatformService.DeactivateMultipleStores (fun _ => none) client "deliveryvip"
          [idLoja]).1 =
        .ok ⟨"deliveryvip",
          [⟨idLoja, .ativo, false, "Erro ao desativar loja: " ++ e.mensagem,
            some e.tipoErro⟩]⟩) ∧
    (∀ (client : String → Option ServiceError) (idLoja : String),
      client idLoja = some (.generic msg) →
      (PlatformService.ActivateMultipleStores (fun _ => none) client "deliveryvip"
          [idLoja]).1 =
        .ok ⟨"deliveryvip",
          [⟨idLoja, .naoEncontrado, false, "Loja não encontrada na plataforma",
            some .naoEncontrado⟩]⟩ ∧
      (PlatformService.DeactivateMultipleStores (fun _ => none) client "deliveryvip"
          [idLoja]).1 =
        .ok ⟨"deliveryvip",
          [⟨idLoja, .naoEncontrado, false, "Loja não encontrada na plataforma",
            some .naoEncontrado⟩]⟩) ∧
    (∀ (client : String → Option ServiceError) (idLoja m : String),
      (goContains m "loja não encontrada" || goContains m "store not found") = false →
      client idLoja = some (.generic m) →
      (PlatformService.ActivateMultipleStores (fun _ => none) client "deliveryvip"
          [idLoja]).1 =
        .ok ⟨"deliveryvip",
          [⟨idLoja, .ativo, false, "Erro ao ativar loja: " ++ m, some .badGateway⟩]⟩ ∧
      (PlatformService.DeactivateMultipleStores (fun _ => none) client "deliveryvip"
          [idLoja]).1 =
        .ok ⟨"deliveryvip",
          [⟨idLoja, .ativo, false, "Erro ao desativar loja: " ++ m, some .badGateway⟩]⟩) := by
  refine ⟨?_, ?_, ?_, ?_, ?_⟩
  · simp [PlatformService.DeactivateMultipleStores, deactivateMultipleLoop, h1, h2,
      mkResultadoDesativar, NewDeliveryVipError]
  · intro client idLoja hcl
    constructor
    · simp [PlatformService.ActivateMultipleStores, activateMultipleLoop, hcl,
        mkResultadoAtivar]
    · simp [PlatformService.DeactivateMultipleStores, deactivateMultipleLoop, hcl,
        mkResultadoDesativar]
  · intro client idLoja e hcl
    constructor
    · simp [PlatformService.ActivateMultipleStores, activateMultipleLoop, hcl,
        mkResultadoAtivar]
    · simp [PlatformService.DeactivateMultipleStores, deactivateMultipleLoop, hcl,
        mkResultadoDesativar]
  · intro client idLoja hcl
    constructor
    · simp [PlatformService.ActivateMultipleStores, activateMultipleLoop, hcl,
        mkResultadoAtivar, hmsg]
    · simp [PlatformService.DeactivateMultipleStores, deactivateMultipleLoop, hcl,
        mkResultadoDesativar, hmsg]
  · intro client idLoja m hm hcl
    constructor
    · simp [PlatformService.ActivateMultipleStores, activateMultipleLoop, hcl,
        mkResultadoAtivar, hm]
    · simp [PlatformService.DeactivateMultipleStores, deactivateMultipleLoop, hcl,
        mkResultadoDesativar, hm]

/-- Witness for the amended C5 at a concrete client and message. -/
theorem C5_amended_bulk_item_classification_witness :
    (PlatformService.DeactivateMultipleStores (fun _ => none)
        (fun id => if id = "s2" then some (NewDeliveryVipError 404 "rb") else none)
        "deliveryvip" ["s1", "s2"]).1 =
      .ok ⟨"deliveryvip",
        [⟨"s1", .inativo, true, "Loja desativada com sucesso", none⟩,
         ⟨"s2", .ativo, false, "Erro ao desativar loja: Loja não encontrada na plataforma",
           some .naoEncontrado⟩]⟩ ∧
    (∀ (client : String → Option ServiceError) (idLoja : String),
      client idLoja = none →
      (PlatformService.ActivateMultipleStores (fun _ => none) client "deliveryvip"
          [idLoja]).1 =
        .ok ⟨"deliveryvip",
          [⟨idLoja, .ativo, true, "Loja ativada com sucesso", none⟩]⟩ ∧
      (PlatformService.DeactivateMultipleStores (fun _ => none) client "deliveryvip"
          [idLoja]).1 =
        .ok ⟨"deliveryvip",
          [⟨idLoja, .inativo, true, "Loja desativada com sucesso", none⟩]⟩) ∧
    (∀ (client : String → Option ServiceError) (idLoja : String) (e : DeliveryVipError),
      client idLoja = some (.deliveryVip e) →
      (PlatformService.ActivateMultipleStores (fun _ => none) client "deliveryvip"
          [idLoja]).1 =
        .ok ⟨"deliveryvip",
          [⟨idLoja, .ativo, false, "Erro ao ativar loja: " ++ e.mensagem,
            some e.tipoErro⟩]⟩ ∧
      (PlatformService.DeactivateMultipleStores (fun _ => none) client "deliveryvip"
          [idLoja]).1 =
        .ok ⟨"deliveryvip",
          [⟨idLoja, .ativo, false, "Erro ao desativar loja: " ++ e.mensagem,
            some e.tipoErro⟩]⟩) ∧
    (∀ (client : String → Option ServiceError) (idLoja : String),
      client idLoja = some (.generic "store not found") →
      (PlatformService.ActivateMultipleStores (fun _ => none) client "deliveryvip"
          [idLoja]).1 =
        .ok ⟨"deliveryvip",
          [⟨idLoja, .naoEncontrado, false, "Loja não encontrada na plataforma",
            some .naoEncontrado⟩]⟩ ∧
      (PlatformService.DeactivateMultipleStores (fun _ => none) client "deliveryvip"
          [idLoja]).1 =
        .ok ⟨"deliveryvip",
          [⟨idLoja, .naoEncontrado, false, "Loja não encontrada na plataforma",
            some .naoEncontrado⟩]⟩) ∧
    (∀ (client : String → Option ServiceError) (idLoja m : String),
      (goContains m "loja não encontrada" || goContains m "store not found") = false →
      client idLoja = some (.generic m) →
      (PlatformService.ActivateMultipleStores (fun _ => none) client "deliveryvip"
          [idLoja]).1 =
        .ok ⟨"deliveryvip",
          [⟨idLoja, .ativo, false, "Erro ao ativar loja: " ++ m, some .badGateway⟩]⟩ ∧
      (PlatformService.DeactivateMultipleStores (fun _ => none) client "deliveryvip"
          [idLoja]).1 =
        .ok ⟨"deliveryvip",
          [⟨idLoja, .ativo, false, "Erro ao desativar loja: " ++ m, some .badGateway⟩]⟩) :=
  C5_amended_bulk_item_classification
    (fun id => if id = "s2" then some (NewDeliveryVipError 404 "rb") else none)
    "rb" "store not found" rfl rfl rfl

/-- C6: with an empty cached access token, every operation of both platform
clients fails immediately with 'token de acesso não disponível' and
performs zero outbound HTTP calls, whatever the network oracle would have
answered. -/
theorem C6_empty_token_fails_without_calls :
    ∀ (hdv : DvOpHttp) (hdvl : DvListHttp) (haa : AaOpHttp) (haal : AaListHttp)
      (ids : List String),
      DeliveryVipService.ActivateStore "" hdv =
        (.error (.generic "token de acesso não disponível"), 0) ∧
      DeliveryVipService.DeactivateStore "" hdv =
        (.error (.generic "token de acesso não disponível"), 0) ∧
      DeliveryVipService.GetMultipleStoreStatus "" ids hdvl =
        (.error (.generic "token de acesso não disponível"), 0) ∧
      AnotaAiService.ActivateStore "" haa =
        (.error (.generic "token de acesso não disponível"), 0) ∧
      AnotaAiService.DeactivateStore "" haa =
        (.error (.generic "token de acesso não disponível"), 0) ∧
      AnotaAiService.GetMultipleStoreStatus "" ids haal =
        (.error (.generic "token de acesso não disponível"), 0) := by
  intro hdv hdvl haa haal ids
  exact ⟨rfl, rfl, rfl, rfl, rfl, rfl⟩

/-- C7: an AnotaAI activate or deactivate call that reaches the network
(non-empty token) succeeds exactly when the platform answers HTTP 200 with
a decodable body whose success flag is true; in particular an HTTP 200
answer with `success = false` is an operation failure carrying the
platform's message. -/
theorem C7_anotaai_success_requires_body_flag (token : String) (htok : token ≠ "")
    (status : Nat) (decoded : Option AnotaAiResponse) :
    ((AnotaAiService.ActivateStore token (.response status decoded)).1 = .ok () ↔
      status = 200 ∧ ∃ r, decoded = some r ∧ r.success = true) ∧
    ((AnotaAiService.DeactivateStore token (.response status decoded)).1 = .ok () ↔
      status = 200 ∧ ∃ r, decoded = some r ∧ r.success = true) ∧
    (∀ msg, (AnotaAiService.ActivateStore token (.response 200 (some ⟨false, msg⟩))).1 =
      .error (.generic ("ativação falhou: " ++ msg))) ∧
    (∀ msg, (AnotaAiService.DeactivateStore token (.response 200 (some ⟨false, msg⟩))).1 =
      .error (.generic ("desativação falhou: " ++ msg))) := by
  refine ⟨?_, ?_, ?_, ?_⟩
  · unfold AnotaAiService.ActivateStore
    rw [if_neg htok]
    by_cases hst : status = 200
    · subst hst
      cases decoded with
      | none => simp
      | some r =>
        cases hr : r.success <;> simp_all
    · simp [hst]
  · unfold AnotaAiService.DeactivateStore
    rw [if_neg htok]
    by_cases hst : status = 200
    · subst hst
      cases decoded with
      | none => simp
      | some r =>
        cases hr : r.success <;> simp_all
    · simp [hst]
  · intro msg
    unfold AnotaAiService.ActivateStore
    rw [if_neg htok]
    simp
  · intro msg
    unfold AnotaAiService.DeactivateStore
    rw [if_neg htok]
    simp

/-- Witness for C7 with a non-empty token, a 200 status and a successful
body. -/
theorem C7_anotaai_success_requires_body_flag_witness :
    ((AnotaAiService.ActivateStore "t" (.response 200 (some ⟨true, "ok"⟩))).1 = .ok () ↔
      200 = 200 ∧ ∃ r, (some (⟨true, "ok"⟩ : AnotaAiResponse)) = some r ∧ r.success = true) ∧
    ((AnotaAiService.DeactivateStore "t" (.response 200 (some ⟨true, "ok"⟩))).1 = .ok () ↔
      200 = 200 ∧ ∃ r, (some (⟨true, "ok"⟩ : AnotaAiResponse)) = some r ∧ r.success = true) ∧
    (∀ msg, (AnotaAiService.ActivateStore "t" (.response 200 (some ⟨false, msg⟩))).1 =
      .error (.generic ("ativação falhou: " ++ msg))) ∧
    (∀ msg, (AnotaAiService.DeactivateStore "t" (.response 200 (some ⟨false, msg⟩))).1 =
      .error (.generic ("desativação falhou: " ++ msg))) :=
  C7_anotaai_success_requires_body_flag "t" (by decide) 200 (some ⟨true, "ok"⟩)

/-- C8: a failing token-renewal attempt on either platform leaves the
cached token exactly as it was (the cache is written only on the success
path), each of the spec's failure shapes (transport error, non-200 status,
undecodable body, AnotaAI `success=false` body) indeed fails the attempt,
and one renewal-loop cycle never propagates the failure — it always
continues with the resulting cache state. -/
theorem C8_renew_failure_leaves_cache :
    (∀ cached h e, (DeliveryVipService.renewToken cached h).1 = Except.error e →
      (DeliveryVipService.renewToken cached h).2 = cached) ∧
    (∀ email password cached h e,
      (AnotaAiService.renewToken email password cached h).1 = Except.error e →
      (AnotaAiService.renewToken email password cached h).2 = cached) ∧
    (∀ cached h, DeliveryVipService.renewLoopIter cached h =
      (DeliveryVipService.renewToken cached h).2) ∧
    (∀ email password cached h, AnotaAiService.renewLoopIter email password cached h =
      (AnotaAiService.renewToken email password cached h).2) ∧
    (∀ cached m, (DeliveryVipService.renewToken cached (.transportError m)).1.isOk = false) ∧
    (∀ cached status body d, status ≠ 200 →
      (DeliveryVipService.renewToken cached (.response status body d)).1.isOk = false) ∧
    (∀ cached body, (DeliveryVipService.renewToken cached (.response 200 body none)).1.isOk
      = false) ∧
    (∀ email password cached body tok,
      (AnotaAiService.renewToken email password cached
        (.response 200 body (some ⟨false, tok⟩))).1.isOk = false) := by
  refine ⟨?_, ?_, ?_, ?_, ?_, ?_, ?_, ?_⟩
  · intro cached h e herr
    unfold DeliveryVipService.renewToken at herr ⊢
    cases h with
    | transportError m => rfl
    | readError m => rfl
    | response status body decoded =>
      by_cases hst : status = 200
      · subst hst
        cases decoded with
        | none => rfl
        | some t => simp at herr
      · simp [hst]
  · intro email password cached h e herr
    unfold AnotaAiService.renewToken at herr ⊢
    by_cases hem : email = ""
    · simp [hem]
    · rw [if_neg hem] at herr ⊢
      by_cases hpw : password = ""
      · simp [hpw]
      · rw [if_neg hpw] at herr ⊢
        cases h with
        | transportError m => rfl
        | readError m => rfl
        | response status body decoded =>
          by_cases hst : status = 200
          · subst hst
            cases decoded with
            | none => rfl
            | some r =>
              cases hr : r.success with
              | false => simp [hr]
              | true => simp [hr] at herr
          · simp [hst]
  · intro cached h
    unfold DeliveryVipService.renewLoopIter
    cases hr : DeliveryVipService.renewToken cached h with
    | mk fst snd => cases fst <;> rfl
  · intro email password cached h
    unfold AnotaAiService.renewLoopIter
    cases hr : AnotaAiService.renewToken email password cached h with
    | mk fst snd => cases fst <;> rfl
  · intro cached m
    rfl
  · intro cached status body d hst
    unfold DeliveryVipService.renewToken
    simp [hst, Except.isOk, Except.toBool]
  · intro cached body
    rfl
  · intro email password cached body tok
    unfold AnotaAiService.renewToken
    by_cases hem : email = ""
    · simp [hem, Except.isOk, Except.toBool]
    · rw [if_neg hem]
      by_cases hpw : password = ""
      · simp [hpw, Except.isOk, Except.toBool]
      · rw [if_neg hpw]
        rfl

/-- Witness for C8 at concrete failing attempts. -/
theorem C8_renew_failure_leaves_cache_witness :
    (DeliveryVipService.renewToken "old" (.transportError "boom")).2 = "old" ∧
    (AnotaAiService.renewToken "e" "p" "old" (.response 500 "b" none)).2 = "old" ∧
    (DeliveryVipService.renewToken "old" (.response 500 "b" none)).1.isOk = false ∧
    (AnotaAiService.renewToken "e" "p" "old"
      (.response 200 "b" (some ⟨false, "t"⟩))).1.isOk = false := by
  refine ⟨?_, ?_, ?_, ?_⟩
  · exact C8_renew_failure_leaves_cache.1 "old" (.transportError "boom")
      "erro ao fazer requisição de token: boom" rfl
  · exact C8_renew_failure_leaves_cache.2.1 "e" "p" "old" (.response 500 "b" none)
      "erro no login - status: 500, resposta: b" rfl
  · exact C8_renew_failure_leaves_cache.2.2.2.2.2.1 "old" 500 "b" none (by decide)
  · exact C8_renew_failure_leaves_cache.2.2.2.2.2.2.2 "e" "p" "old" "b" "t"

/-- C9: a DeliveryVip activate or deactivate call that reaches the network
(non-empty token) succeeds exactly when the platform answers HTTP 202;
every other status — including 200 — fails with a structured error whose
kind is determined by the status alone: 404 not-found, 401 unauthorized,
422 invalid-request, anything else bad-gateway. -/
theorem C9_deliveryvip_success_only_202 (token : String) (htok : token ≠ "")
    (status : Nat) (body : String) :
    ((DeliveryVipService.ActivateStore token (.response status body)).1 = .ok () ↔
      status = 202) ∧
    ((DeliveryVipService.DeactivateStore token (.response status body)).1 = .ok () ↔
      status = 202) ∧
    (status ≠ 202 →
      ∃ msg,
        (DeliveryVipService.ActivateStore token (.response status body)).1 =
          .error (.deliveryVip ⟨status,
            if status = 404 then .naoEncontrado
            else if status = 401 then .naoAutorizado
            else if status = 422 then .requisicaoInvalida
            else .badGateway, msg⟩) ∧
        (DeliveryVipService.DeactivateStore token (.response status body)).1 =
          .error (.deliveryVip ⟨status,
            if status = 404 then .naoEncontrado
            else if status = 401 then .naoAutorizado
            else if status = 422 then .requisicaoInvalida
            else .badGateway, msg⟩)) := by
  refine ⟨?_, ?_, ?_⟩
  · unfold DeliveryVipService.ActivateStore
    rw [if_neg htok]
    by_cases hst : status = 202
    · subst hst; simp
    · simp [hst]
  · unfold DeliveryVipService.DeactivateStore
    rw [if_neg htok]
    by_cases hst : status = 202
    · subst hst; simp
    · simp [hst]
  · intro hne2
    by_cases h404 : status = 404
    · subst h404
      exact ⟨"Loja não encontrada na plataforma",
        by simp [DeliveryVipService.ActivateStore, NewDeliveryVipError, htok],
        by simp [DeliveryVipService.DeactivateStore, NewDeliveryVipError, htok]⟩
    · by_cases h401 : status = 401
      · subst h401
        exact ⟨"Erro de autenticação com a plataforma",
          by simp [DeliveryVipService.ActivateStore, NewDeliveryVipError, htok],
          by simp [DeliveryVipService.DeactivateStore, NewDeliveryVipError, htok]⟩
      · by_cases h422 : status = 422
        · subst h422
          exact ⟨"Dados inválidos para a operação",
            by simp [DeliveryVipService.ActivateStore, NewDeliveryVipError, htok],
            by simp [DeliveryVipService.DeactivateStore, NewDeliveryVipError, htok]⟩
        · exact ⟨s!"Erro na comunicação com a plataforma - Status: {status}, Resposta: {body}",
            by simp [DeliveryVipService.ActivateStore, NewDeliveryVipError, htok, hne2,
              h404, h401, h422],
            by simp [DeliveryVipService.DeactivateStore, NewDeliveryVipError, htok, hne2,
              h404, h401, h422]⟩

/-- Witness for C9 at a 200 answer, which must be a bad-gateway failure. -/
theorem C9_deliveryvip_success_only_202_witness :
    ((DeliveryVipService.ActivateStore "t" (.response 200 "b")).1 = .ok () ↔ 200 = 202) ∧
    ((DeliveryVipService.DeactivateStore "t" (.response 200 "b")).1 = .ok () ↔ 200 = 202) ∧
    ((200 : Nat) ≠ 202 →
      ∃ msg,
        (DeliveryVipService.ActivateStore "t" (.response 200 "b")).1 =
          .error (.deliveryVip ⟨200,
            if (200 : Nat) = 404 then .naoEncontrado
            else if (200 : Nat) = 401 then .naoAutorizado
            else if (200 : Nat) = 422 then .requisicaoInvalida
            else .badGateway, msg⟩) ∧
        (DeliveryVipService.DeactivateStore "t" (.response 200 "b")).1 =
          .error (.deliveryVip ⟨200,
            if (200 : Nat) = 404 then .naoEncontrado
            else if (200 : Nat) = 401 then .naoAutorizado
            else if (200 : Nat) = 422 then .requisicaoInvalida
            else .badGateway, msg⟩)) :=
  C9_deliveryvip_success_only_202 "t" (by decide) 200 "b"

/-- C10: a DeliveryVip renewal attempt answered with HTTP 200 and any
decodable body unconditionally overwrites the cached token with the body's
`access_token` field; if that field is missing (decoded as the empty
string), every subsequent operation fails with 'token de acesso não
disponível' and performs no outbound call until the next successful
renewal. -/
theorem C10_renew_200_overwrites_token (cached body : String)
    (t : DeliveryVipTokenResponse) (hdv : DvOpHttp) (hdvl : DvListHttp)
    (ids : List String) (hempty : t.accessToken = "") :
    DeliveryVipService.renewToken cached (.response 200 body (some t)) =
      (.ok (), t.accessToken) ∧
    DeliveryVipService.ActivateStore t.accessToken hdv =
      (.error (.generic "token de acesso não disponível"), 0) ∧
    DeliveryVipService.DeactivateStore t.accessToken hdv =
      (.error (.generic "token de acesso não disponível"), 0) ∧
    DeliveryVipService.GetMultipleStoreStatus t.accessToken ids hdvl =
      (.error (.generic "token de acesso não disponível"), 0) := by
  refine ⟨rfl, ?_, ?_, ?_⟩ <;> rw [hempty] <;> rfl

/-- Witness for C10 at a decodable body carrying no access token. -/
theorem C10_renew_200_overwrites_token_witness :
    DeliveryVipService.renewToken "old-token" (.response 200 "{}" (some ⟨""⟩)) =
      (.ok (), DeliveryVipTokenResponse.accessToken ⟨""⟩) ∧
    DeliveryVipService.ActivateStore (DeliveryVipTokenResponse.accessToken ⟨""⟩)
        (.response 202 "") =
      (.error (.generic "token de acesso não disponível"), 0) ∧
    DeliveryVipService.DeactivateStore (DeliveryVipTokenResponse.accessToken ⟨""⟩)
        (.response 202 "") =
      (.error (.generic "token de acesso não disponível"), 0) ∧
    DeliveryVipService.GetMultipleStoreStatus (DeliveryVipTokenResponse.accessToken ⟨""⟩)
        ["s1"] (.response 200 "[]" (some [])) =
      (.error (.generic "token de acesso não disponível"), 0) :=
  C10_renew_200_overwrites_token "old-token" "{}" ⟨""⟩ (.response 202 "")
    (.response 200 "[]" (some [])) ["s1"] rfl

end DeliveryControl
